import Mathlib

/-!
Verification development for the feasibility/estimation engine of the
`rif-relay-common` repository (file `src/ContractInteractor.ts` and the
compiled `VersionsManager`).

The TypeScript code is shallowly embedded: every asynchronous gateway
interaction (node-side gas estimation, balance reads, verifier and hub
view calls) is represented by an oracle record holding the result the
remote node would produce, and each embedded operation additionally
returns the list of gateway calls it performed, so that claims about
which simulations were (not) invoked are provable.  Ethers `BigNumber`
values are arbitrary-precision integers; they are embedded as `Nat`
(gas amounts and balances are non-negative) or `Int` where the claim is
about non-negativity.  A `BigNumber.div` by a zero divisor throws in
ethers; that is embedded as an `Except` error.
-/

/-- The observable gateway interactions performed by the embedded
operations of `ContractInteractor`. -/
inductive GatewayCall where
  /-- a node-side gas estimation (`provider.estimateGas` or
  `rHub.estimateGas.deployCall`) -/
  | estimateGas
  /-- a worker balance read (`provider.getBalance`) -/
  | getBalance
  /-- the verifier acceptance simulation (`verifyRelayedCall`) -/
  | verifyRelayedCall
  /-- the hub relay execution simulation (view call to `relayCall`) -/
  | relayCall
  /-- the hub deploy execution simulation (view call to `deployCall`) -/
  | deployCall
deriving DecidableEq, Repr

instance exceptDecEq {ε α : Type} [DecidableEq ε] [DecidableEq α] :
    DecidableEq (Except ε α)
  | Except.ok a, Except.ok b =>
    if h : a = b then isTrue (by rw [h])
    else isFalse (by intro hh; cases hh; exact h rfl)
  | Except.ok _, Except.error _ => isFalse (by intro h; cases h)
  | Except.error _, Except.ok _ => isFalse (by intro h; cases h)
  | Except.error a, Except.error b =>
    if h : a = b then isTrue (by rw [h])
    else isFalse (by intro hh; cases hh; exact h rfl)

/-- Oracle for the remote-node results consumed by the relay path of
`ContractInteractor`: the raw `provider.estimateGas` answer for the
encoded `relayCall`, the worker balance, and the outcomes of the two
view simulations (`Except` errors stand for thrown rejections, the
caught `message` being the payload). -/
structure RelayGateway where
  rawEstimate : Nat
  workerBalance : Nat
  verifyRelayedCall : Except String Unit
  relayCall : Except String Bool
deriving DecidableEq, Repr

/-- Oracle for the deploy path: `relayHubAddressOk` is false when the
request metadata carries a missing/zero relay-hub address (in which case
`walletFactoryEstimateGasOfDeployCall` throws before any gateway call);
`deployCall` yields the transaction hash on success. -/
structure DeployGateway where
  relayHubAddressOk : Bool
  rawDeployEstimate : Nat
  workerBalance : Nat
  verifyRelayedCall : Except String Unit
  deployCall : Except String String
deriving DecidableEq, Repr

/-- Modelled from the spec: the configured correction constant
(`ESTIMATED_GAS_CORRECTION_FACTOR`, a rational multiplier defaulting to
the neutral `1.0`) lives in `src/constants`, which is not part of the
sources; the factor is therefore taken as an explicit rational
parameter.  This definition carries the SPECIFICATION-intended
correction arithmetic — multiply the raw estimate by the factor and
round up to a whole gas unit — and serves as the estimator
post-processing in the feasibility plumbing, whose claims hypothesize
or quantify over the resulting limit.  It is NOT a faithful model of
the in-source ethers expression
`BigNumber.from(FixedNumber.from(maxPossibleGas.mul(FACTOR)).ceiling())`;
that expression is embedded separately as
`applyGasCorrectionFactorEthers`, and the two diverge. -/
def applyGasCorrectionFactor (raw : Nat) (factor : ℚ) : Nat :=
  Nat.ceil ((raw : ℚ) * factor)

/-- Faithful embedding of the in-source ethers v5 expression
`BigNumber.from(FixedNumber.from(maxPossibleGas.mul(FACTOR)).ceiling())`:
`BigNumber.mul` coerces the factor through `BigNumber.from`, which
throws an underflow fault on any non-integral value, so a fractional
factor never reaches the arithmetic; for an integral factor the product
is an integral `BigNumber`, `FixedNumber.from` (default format
`fixed128x18`) stores it internally scaled by `10 ^ 18`, `ceiling` of an
already-integral `FixedNumber` is the identity, and `BigNumber.from` of
a `FixedNumber` reads the scaled internal hex — so the expression
yields the product times `10 ^ 18`. -/
def applyGasCorrectionFactorEthers (raw : Nat) (factor : ℚ) : Except String Int :=
  if factor.den = 1 then Except.ok ((raw : Int) * factor.num * 10 ^ 18)
  else Except.error "underflow"

/-- The rational `1.1` of the claimed example, built as a reduced
numerator/denominator pair so both fields are definitionally `11` and
`10`. -/
def elevenTenths : ℚ := ⟨11, 10, by decide, by decide⟩

/-- Embeds `estimateRelayTransactionMaxPossibleGas` for the feasibility
plumbing: one `provider.estimateGas` call on the encoded `relayCall`,
then the specification-intended correction applied
(`applyGasCorrectionFactor`; see `applyGasCorrectionFactorEthers` and
`estimateRelayTransactionMaxPossibleGasEthers` for the faithful
semantics of the ethers correction expression, which diverge). -/
def estimateRelayTransactionMaxPossibleGas (gw : RelayGateway) (factor : ℚ) :
    Nat × List GatewayCall :=
  (applyGasCorrectionFactor gw.rawEstimate factor, [GatewayCall.estimateGas])

/-- Embeds `estimateRelayTransactionMaxPossibleGas` with the correction
expression taken at its faithful ethers semantics
(`applyGasCorrectionFactorEthers`): one `provider.estimateGas` call,
then the `FixedNumber` round trip. -/
def estimateRelayTransactionMaxPossibleGasEthers (gw : RelayGateway) (factor : ℚ) :
    Except String Int × List GatewayCall :=
  (applyGasCorrectionFactorEthers gw.rawEstimate factor, [GatewayCall.estimateGas])

/-- Embeds `getMaxViewableRelayGasLimit`.  The source contains
`if (!BigNumber.from(gasPrice).eq(0)) { 0; }`, a branch whose body is the
bare no-op expression statement `0;`, so no short-circuit happens on any
gas price: the gas estimation and the balance read always run, and for a
zero gas price the subsequent ethers `BigNumber.div` throws its
division-by-zero fault. -/
def getMaxViewableRelayGasLimit (gw : RelayGateway) (factor : ℚ) (gasPrice : Nat) :
    Except String Nat × List GatewayCall :=
  let est := estimateRelayTransactionMaxPossibleGas gw factor
  let maxEstimatedGas := est.1
  if gasPrice = 0 then
    (Except.error "division-by-zero", est.2 ++ [GatewayCall.getBalance])
  else
    let workerBalanceAsUnitsOfGas := gw.workerBalance / gasPrice
    (Except.ok (if maxEstimatedGas ≤ workerBalanceAsUnitsOfGas then maxEstimatedGas else 0),
      est.2 ++ [GatewayCall.getBalance])

/-- Embeds `walletFactoryEstimateGasOfDeployCall`: throws when the
relay-hub address is missing or zero, otherwise performs one
`rHub.estimateGas.deployCall` (no correction factor on this path). -/
def walletFactoryEstimateGasOfDeployCall (gw : DeployGateway) :
    Except String Nat × List GatewayCall :=
  if gw.relayHubAddressOk then
    (Except.ok gw.rawDeployEstimate, [GatewayCall.estimateGas])
  else
    (Except.error "calculateDeployCallGas: RelayHub must be defined", [])

/-- Embeds `getMaxViewableDeployGasLimit`: returns 0 immediately on a
zero gas price, otherwise estimates the deploy gas, reads the worker
balance, and clamps to 0 when the balance converted to gas units cannot
cover the estimate. -/
def getMaxViewableDeployGasLimit (gw : DeployGateway) (gasPrice : Nat) :
    Except String Nat × List GatewayCall :=
  if gasPrice = 0 then
    (Except.ok 0, [])
  else
    match walletFactoryEstimateGasOfDeployCall gw with
    | (Except.error e, cs) => (Except.error e, cs)
    | (Except.ok maxEstimatedGas, cs) =>
      let workerBalanceAsUnitsOfGas := gw.workerBalance / gasPrice
      (Except.ok (if maxEstimatedGas ≤ workerBalanceAsUnitsOfGas then maxEstimatedGas else 0),
        cs ++ [GatewayCall.getBalance])

/-- The verdict returned by `validateAcceptRelayCall`. -/
structure RelayVerdict where
  verifierAccepted : Bool
  returnValue : String
  reverted : Bool
  revertedInDestination : Bool
deriving DecidableEq, Repr

/-- The verdict returned by `validateAcceptDeployCall` (no
destination-revert field on the deploy path). -/
structure DeployVerdict where
  verifierAccepted : Bool
  returnValue : String
  reverted : Bool
deriving DecidableEq, Repr

/-- The balance-shortfall detail message used by both validate paths. -/
def insufficientBalanceMessage (relayWorker : String) : String :=
  "relayWorker " ++ relayWorker ++
    " does not have enough balance to cover the maximum possible gas for this transaction"

/-- Embeds `validateAcceptRelayCall`: computes the maximum viewable gas
limit (rethrowing its failure), returns the terminal balance verdict
when it is zero, otherwise runs the verifier simulation and then the hub
`relayCall` view simulation, converting every thrown message into a
structured verdict. -/
def validateAcceptRelayCall (gw : RelayGateway) (factor : ℚ) (gasPrice : Nat)
    (relayWorker : String) : Except String RelayVerdict × List GatewayCall :=
  let limit := getMaxViewableRelayGasLimit gw factor gasPrice
  match limit.1 with
  | Except.error e => (Except.error e, limit.2)
  | Except.ok externalGasLimit =>
    if externalGasLimit = 0 then
      (Except.ok
        { verifierAccepted := false
          reverted := false
          returnValue := insufficientBalanceMessage relayWorker
          revertedInDestination := false }, limit.2)
    else
      match gw.verifyRelayedCall with
      | Except.error msg =>
        (Except.ok
          { verifierAccepted := false
            reverted := false
            returnValue := "view call to \x27relayCall\x27 reverted in verifier: " ++ msg
            revertedInDestination := false },
          limit.2 ++ [GatewayCall.verifyRelayedCall])
      | Except.ok _ =>
        match gw.relayCall with
        | Except.ok res =>
          (Except.ok
            { verifierAccepted := true
              reverted := false
              returnValue := ""
              revertedInDestination := !res },
            limit.2 ++ [GatewayCall.verifyRelayedCall, GatewayCall.relayCall])
        | Except.error msg =>
          (Except.ok
            { verifierAccepted := true
              reverted := true
              returnValue := "view call to \x27relayCall\x27 reverted in client: " ++ msg
              revertedInDestination := false },
            limit.2 ++ [GatewayCall.verifyRelayedCall, GatewayCall.relayCall])

/-- Embeds `validateAcceptDeployCall`: same shape as the relay path but
against the deploy verifier and the hub `deployCall`, with the verdict
carrying the transaction hash on success. -/
def validateAcceptDeployCall (gw : DeployGateway) (gasPrice : Nat)
    (relayWorker : String) : Except String DeployVerdict × List GatewayCall :=
  let limit := getMaxViewableDeployGasLimit gw gasPrice
  match limit.1 with
  | Except.error e => (Except.error e, limit.2)
  | Except.ok externalGasLimit =>
    if externalGasLimit = 0 then
      (Except.ok
        { verifierAccepted := false
          reverted := false
          returnValue := insufficientBalanceMessage relayWorker }, limit.2)
    else
      match gw.verifyRelayedCall with
      | Except.error msg =>
        (Except.ok
          { verifierAccepted := false
            reverted := false
            returnValue := "view call to \x27deploy call\x27 reverted in verifier: " ++ msg },
          limit.2 ++ [GatewayCall.verifyRelayedCall])
      | Except.ok _ =>
        match gw.deployCall with
        | Except.ok hash =>
          (Except.ok
            { verifierAccepted := true
              reverted := false
              returnValue := hash },
            limit.2 ++ [GatewayCall.verifyRelayedCall, GatewayCall.deployCall])
        | Except.error msg =>
          (Except.ok
            { verifierAccepted := true
              reverted := true
              returnValue := "view call to \x27deployCall\x27 reverted in client: " ++ msg },
            limit.2 ++ [GatewayCall.verifyRelayedCall, GatewayCall.deployCall])

/-- Embeds `estimateDestinationContractCallGas`: one node-side gas
estimation (the `estimated` argument below is the oracle result), then
the internal-transaction correction constant is subtracted when the
estimate strictly exceeds it.  The `addCushion = true` branch carries
the specification-intended cushion (multiply by the rational factor,
round up); it is NOT faithful to the in-source plain
`BigNumber.mul(ESTIMATED_GAS_CORRECTION_FACTOR)`, which performs no
rounding and rejects fractional factors
(see `applyGasCorrectionFactorEthers`) — every claim about this
function fixes `addCushion = false`, where the embedding is exact. -/
def estimateDestinationContractCallGas (estimated correction : Int)
    (addCushion : Bool) (factor : ℚ) : Int :=
  let internalCallCost := if correction < estimated then estimated - correction else estimated
  if addCushion then Int.ceil ((internalCallCost : ℚ) * factor) else internalCallCost

/-!
Embedding of the compiled `VersionsManager` and of the semantics of the
`semver` npm package it delegates to (`semver.valid`,
`semver.satisfies(version, '^' + componentVersion)`), restricted to the
shapes the source produces: the range string is always a caret followed
by a full semantic version.
-/

/-- Characters legal in a semver prerelease/build identifier:
`[0-9A-Za-z-]`. -/
def isIdentChar (c : Char) : Bool :=
  c.isDigit || c.isAlpha || c = '-'

/-- Trims surrounding whitespace, as the `trim` applied by the semver
package before parsing. -/
def trimWhitespace (cs : List Char) : List Char :=
  ((cs.dropWhile Char.isWhitespace).reverse.dropWhile Char.isWhitespace).reverse

/-- Splits a character list at the first occurrence of `c`; the second
component is `none` when `c` does not occur. -/
def breakOnFirst (c : Char) : List Char → List Char × Option (List Char)
  | [] => ([], none)
  | x :: xs =>
    if x = c then ([], some xs)
    else
      let r := breakOnFirst c xs
      (x :: r.1, r.2)

/-- Splits a character list on every occurrence of `c` (empty segments
preserved, as in the JavaScript `split`). -/
def splitOnChar (c : Char) : List Char → List (List Char)
  | [] => [[]]
  | x :: xs =>
    let r := splitOnChar c xs
    if x = c then [] :: r
    else
      match r with
      | h :: t => (x :: h) :: t
      | [] => [[x]]

/-- Numeric value of a digit string. -/
def digitsVal (cs : List Char) : Nat :=
  cs.foldl (fun a c => a * 10 + (c.toNat - 48)) 0

/-- True for a non-empty digit list with no forbidden leading zero. -/
def noLeadingZeroDigits : List Char → Bool
  | [] => false
  | ['0'] => true
  | c :: _ => c != '0'

/-- A semver `MAJOR`/`MINOR`/`PATCH` component: digits only, no leading
zero. -/
def parseNumId (cs : List Char) : Option Nat :=
  if cs.all Char.isDigit && noLeadingZeroDigits cs then some (digitsVal cs) else none

/-- A prerelease identifier: numeric (compared as a number) or
alphanumeric (compared as an ASCII string). -/
inductive PreId where
  | num : Nat → PreId
  | str : String → PreId
deriving DecidableEq, Repr

/-- A parsed semantic version; build metadata is validated during
parsing and then discarded, as it never participates in precedence. -/
structure SemVer where
  major : Nat
  minor : Nat
  patch : Nat
  prerelease : List PreId
deriving DecidableEq, Repr

/-- Parses one prerelease identifier, per the semver grammar
`0|[1-9]\d*|\d*[a-zA-Z-][a-zA-Z0-9-]*`. -/
def parsePreId (cs : List Char) : Option PreId :=
  if cs.all Char.isDigit && !cs.isEmpty then
    if noLeadingZeroDigits cs then some (PreId.num (digitsVal cs)) else none
  else if !cs.isEmpty && cs.all isIdentChar then some (PreId.str (String.mk cs))
  else none

/-- Strict semver parsing, as `new SemVer(s)` / `semver.valid(s)` of the
`semver` package: optional surrounding whitespace and a single optional
leading `v`, then `MAJOR.MINOR.PATCH`, an optional `-` prerelease
(dot-separated identifiers) and an optional `+` build (dot-separated
non-empty `[0-9A-Za-z-]` identifiers, discarded). -/
def semverParse (s : String) : Option SemVer :=
  let cs := trimWhitespace s.toList
  let cs := match cs with
    | 'v' :: rest => rest
    | other => other
  let b := breakOnFirst '+' cs
  let buildOk := match b.2 with
    | none => true
    | some bd => (splitOnChar '.' bd).all (fun i => !i.isEmpty && i.all isIdentChar)
  let p := breakOnFirst '-' b.1
  match splitOnChar '.' p.1 with
  | [x, y, z] =>
    match parseNumId x, parseNumId y, parseNumId z with
    | some M, some m, some pa =>
      if buildOk then
        match p.2 with
        | none => some ⟨M, m, pa, []⟩
        | some pr =>
          let ids := (splitOnChar '.' pr).map parsePreId
          if ids.all Option.isSome then some ⟨M, m, pa, ids.filterMap id⟩ else none
      else none
    | _, _, _ => none
  | _ => none

/-- Precedence on single prerelease identifiers: numeric identifiers
sort below alphanumeric ones; numerics compare numerically,
alphanumerics in ASCII order. -/
def cmpPreId : PreId → PreId → Ordering
  | PreId.num a, PreId.num b => compare a b
  | PreId.num _, PreId.str _ => Ordering.lt
  | PreId.str _, PreId.num _ => Ordering.gt
  | PreId.str a, PreId.str b => compare a b

/-- Precedence on prerelease identifier lists: pointwise, a shorter list
that is a prefix of the other sorting first. -/
def cmpPreList : List PreId → List PreId → Ordering
  | [], [] => Ordering.eq
  | [], _ :: _ => Ordering.lt
  | _ :: _, [] => Ordering.gt
  | a :: as, b :: bs =>
    match cmpPreId a b with
    | Ordering.eq => cmpPreList as bs
    | o => o

/-- Semver precedence: compare the numeric triple, then prereleases,
a version without prerelease sorting above any prerelease of the same
triple. -/
def semverCompare (a b : SemVer) : Ordering :=
  match compare a.major b.major with
  | Ordering.eq =>
    match compare a.minor b.minor with
    | Ordering.eq =>
      match compare a.patch b.patch with
      | Ordering.eq =>
        match a.prerelease, b.prerelease with
        | [], [] => Ordering.eq
        | [], _ :: _ => Ordering.gt
        | _ :: _, [] => Ordering.lt
        | pa, pb => cmpPreList pa pb
      | o => o
    | o => o
  | o => o

/-- The two comparator shapes a caret range desugars to. -/
inductive CompOp where
  | ge
  | lt
deriving DecidableEq, Repr

/-- A primitive range comparator. -/
structure Comparator where
  op : CompOp
  ver : SemVer
deriving DecidableEq, Repr

/-- Caret desugaring of the `semver` package: `^X.Y.Z[-pre]` becomes
`>=X.Y.Z[-pre] <(X+1).0.0-0`, with the next-breaking bound moving to the
minor (resp. patch) position for `0.Y.Z` (resp. `0.0.Z`) bases. -/
def caretComparators (v : SemVer) : List Comparator :=
  let upper : SemVer :=
    if 0 < v.major then ⟨v.major + 1, 0, 0, [PreId.num 0]⟩
    else if 0 < v.minor then ⟨0, v.minor + 1, 0, [PreId.num 0]⟩
    else ⟨0, 0, v.patch + 1, [PreId.num 0]⟩
  [⟨CompOp.ge, v⟩, ⟨CompOp.lt, upper⟩]

/-- Whether a version meets one comparator. -/
def testComparator (v : SemVer) (c : Comparator) : Bool :=
  match c.op with
  | CompOp.ge =>
    match semverCompare v c.ver with
    | Ordering.lt => false
    | _ => true
  | CompOp.lt =>
    match semverCompare v c.ver with
    | Ordering.lt => true
    | _ => false

/-- `Range.test` of the `semver` package (default options): every
comparator must hold, and a version carrying a prerelease additionally
requires some comparator with a prerelease on the same numeric triple. -/
def rangeSatisfies (comps : List Comparator) (v : SemVer) : Bool :=
  comps.all (testComparator v) &&
    (v.prerelease.isEmpty ||
      comps.any (fun c =>
        !c.ver.prerelease.isEmpty && c.ver.major == v.major &&
          c.ver.minor == v.minor && c.ver.patch == v.patch))

/-- `semver.satisfies(versionStr, rangeStr)` for the range strings the
source builds: a caret followed by a full version.  Either string
failing to parse yields `false` (the package catches parse failures in
`satisfies`/`Range.test`). -/
def semverSatisfiesCaret (rangeStr versionStr : String) : Bool :=
  match rangeStr.toList with
  | '^' :: rest =>
    match semverParse (String.mk rest) with
    | none => false
    | some base =>
      match semverParse versionStr with
      | none => false
      | some v => rangeSatisfies (caretComparators base) v
  | _ => false

/-- The JavaScript `replace` of an underscore by a hyphen, called with
a plain string pattern in the source: only the
first occurrence of the underscore is replaced. -/
def replaceFirstUnderscore (s : String) : String :=
  match breakOnFirst '_' s.toList with
  | (_, none) => s
  | (pre, some post) => String.mk (pre ++ '-' :: post)

/-- The normalization the specification describes: every underscore
replaced by a hyphen. -/
def replaceAllUnderscores (s : String) : String :=
  String.mk (s.toList.map (fun c => if c = '_' then '-' else c))

/-- `semver.valid(s) != null`. -/
def semverValid (s : String) : Bool :=
  (semverParse s).isSome

/-- The state of a constructed `VersionsManager`. -/
structure VersionsManager where
  componentVersion : String
deriving DecidableEq, Repr

/-- The `VersionsManager` constructor: rejects an own version that is
not valid semver. -/
def VersionsManager.create (componentVersion : String) : Except String VersionsManager :=
  if semverValid componentVersion then Except.ok ⟨componentVersion⟩
  else Except.error "Component version is not valid"

/-- Embeds `VersionsManager.isMinorSameOrNewer`: replace the first
underscore of the remote version, build the range `'^' +
componentVersion`, and ask `semver.satisfies`. -/
def VersionsManager.isMinorSameOrNewer (vm : VersionsManager) (version : String) : Bool :=
  let version := replaceFirstUnderscore version
  let range := "^" ++ vm.componentVersion
  semverSatisfiesCaret range version

/-- The `VERSION` constant of `ContractInteractor`. -/
def CONTRACT_INTERACTOR_VERSION : String := "2.0.1"

/-- The per-instance data of `ContractInteractor` relevant to the
version gate. -/
structure ContractInteractor where
  versionManager : VersionsManager
deriving DecidableEq, Repr

/-- Embeds `_validateVersion`: throws when the remote hub version is not
accepted by `isMinorSameOrNewer`. -/
def ContractInteractor.validateVersion (i : ContractInteractor) (version : String) :
    Except String Unit :=
  if i.versionManager.isMinorSameOrNewer version then Except.ok ()
  else
    Except.error
      ("Provided Hub version(" ++ version ++
        ") is not supported by the current interactor(" ++
        i.versionManager.componentVersion ++ ")")

/-- Embeds the static `ContractInteractor.getInstance`.  The input is
the static `instance` field (`none` when unset) plus the remote hub
version the node would report; the output is the new static field and
the promise outcome.  Faithful to the source, the static field is
assigned by the constructor call before `versionHub()` is awaited and
`_validateVersion` runs, so the field keeps the new instance even when
validation throws. -/
def ContractInteractor.getInstance (st : Option ContractInteractor)
    (remoteHubVersion : String) :
    Option ContractInteractor × Except String ContractInteractor :=
  match st with
  | some i => (some i, Except.ok i)
  | none =>
    let i : ContractInteractor := ⟨⟨CONTRACT_INTERACTOR_VERSION⟩⟩
    match i.validateVersion remoteHubVersion with
    | Except.ok _ => (some i, Except.ok i)
    | Except.error e => (some i, Except.error e)

/-!
Helper lemmas shared by the claim theorems.
-/

theorem applyGasCorrectionFactor_one (raw : Nat) : applyGasCorrectionFactor raw 1 = raw := by
  simp [applyGasCorrectionFactor]

theorem getMaxViewableRelayGasLimit_trace (gw : RelayGateway) (factor : ℚ) (gp : Nat) :
    (getMaxViewableRelayGasLimit gw factor gp).2 =
      [GatewayCall.estimateGas, GatewayCall.getBalance] := by
  unfold getMaxViewableRelayGasLimit estimateRelayTransactionMaxPossibleGas
  split <;> rfl

theorem getMaxViewableDeployGasLimit_trace (gw : DeployGateway) (gp : Nat) :
    (getMaxViewableDeployGasLimit gw gp).2 = [] ∨
      (getMaxViewableDeployGasLimit gw gp).2 =
        [GatewayCall.estimateGas, GatewayCall.getBalance] := by
  unfold getMaxViewableDeployGasLimit walletFactoryEstimateGasOfDeployCall
  by_cases h : gp = 0
  · simp [h]
  · by_cases hh : gw.relayHubAddressOk <;> simp [h, hh]

/-!
Claim theorems.
-/

/-- Claim C3 (code bug, evaluation at the failing input): on the relay
path a zero `relayData` gas price does not short-circuit — the dead
`if (!gasPrice.eq(0)) { 0; }` branch means the gateway gas estimation
and the worker balance read both run and the call then throws the
ethers division-by-zero fault instead of returning 0; only the deploy
path returns 0 without invoking the gateway. -/
theorem relay_zero_gas_price_eval :
    getMaxViewableRelayGasLimit
        { rawEstimate := 100000, workerBalance := 50,
          verifyRelayedCall := Except.ok (), relayCall := Except.ok true } 1 0 =
      (Except.error "division-by-zero",
        [GatewayCall.estimateGas, GatewayCall.getBalance]) ∧
    (∀ gw : DeployGateway, getMaxViewableDeployGasLimit gw 0 = (Except.ok 0, [])) := by
  exact ⟨rfl, fun gw => rfl⟩

/-- Claim C6 (code bug, evaluation at the failing input): the
specification demands raw-estimate times factor rounded up (identity at
the neutral factor `1.0`, and `110000` from `100000` at `1.1` — the
source comment itself expects `1.0` to be inactive), but the faithful
ethers semantics of the in-source expression
`BigNumber.from(FixedNumber.from(maxPossibleGas.mul(FACTOR)).ceiling())`
throws an underflow fault on the fractional factor `1.1`, and at the
integral factor `1.0` returns the raw estimate scaled by `10 ^ 18`
(the `fixed128x18` internal representation) — neither `110000` nor the
raw estimate `100000`. -/
theorem gas_correction_factor_ethers_eval :
    elevenTenths = 11 / 10 ∧
    (estimateRelayTransactionMaxPossibleGasEthers
        { rawEstimate := 100000, workerBalance := 0,
          verifyRelayedCall := Except.ok (), relayCall := Except.ok true }
        elevenTenths).1 = Except.error "underflow" ∧
    (estimateRelayTransactionMaxPossibleGasEthers
        { rawEstimate := 100000, workerBalance := 0,
          verifyRelayedCall := Except.ok (), relayCall := Except.ok true }
        1).1 = Except.ok (100000 * 10 ^ 18) ∧
    (100000 : Int) * 10 ^ 18 ≠ 110000 ∧
    (100000 : Int) * 10 ^ 18 ≠ 100000 := by
  refine ⟨?_, by decide, ?_, by decide, by decide⟩
  · have h := Rat.num_div_den elevenTenths
    have hn : (elevenTenths.num : ℚ) = 11 := by norm_num [elevenTenths]
    have hd : (elevenTenths.den : ℚ) = 10 := by norm_num [elevenTenths]
    rw [hn, hd] at h
    exact h.symm
  · show applyGasCorrectionFactorEthers 100000 1 = Except.ok (100000 * 10 ^ 18)
    norm_num [applyGasCorrectionFactorEthers]

/-- Claim C7: with the cushion disabled, the destination-contract
estimation subtracts the internal-transaction-overhead constant when
the raw estimate strictly exceeds it and returns the raw estimate
unchanged otherwise; the result is never negative and never exceeds
the raw estimate. -/
theorem destination_call_gas_cushionless (estimated correction : Int) (factor : ℚ)
    (hest : 0 ≤ estimated) (hcorr : 0 ≤ correction) :
    (correction < estimated →
      estimateDestinationContractCallGas estimated correction false factor =
        estimated - correction) ∧
    (estimated ≤ correction →
      estimateDestinationContractCallGas estimated correction false factor = estimated) ∧
    0 ≤ estimateDestinationContractCallGas estimated correction false factor ∧
    estimateDestinationContractCallGas estimated correction false factor ≤ estimated := by
  unfold estimateDestinationContractCallGas
  simp only [Bool.false_eq_true, if_false]
  split <;> refine ⟨?_, ?_, ?_, ?_⟩ <;> omega

/-- Claim C7 witness: evaluated at a raw estimate of 10 and an overhead
constant of 3 (and, via the second clause, at the boundary where the
estimate does not exceed the constant). -/
theorem destination_call_gas_cushionless_witness :
    (0 : Int) ≤ 10 ∧ (0 : Int) ≤ 3 ∧
    ((3 : Int) < 10 →
      estimateDestinationContractCallGas 10 3 false 1 = 10 - 3) ∧
    ((10 : Int) ≤ 3 →
      estimateDestinationContractCallGas 10 3 false 1 = 10) ∧
    0 ≤ estimateDestinationContractCallGas 10 3 false 1 ∧
    estimateDestinationContractCallGas 10 3 false 1 ≤ 10 := by
  refine ⟨by decide, by decide, ?_⟩
  exact destination_call_gas_cushionless 10 3 1 (by decide) (by decide)

/-- Claim C9 (code bug, evaluation at the failing input): the static
singleton is assigned before the hub version is validated, so after a
first `getInstance` that fails with the unsupported-remote-version
error, a second `getInstance` against the same static state returns the
cached, never-validated instance successfully instead of failing. -/
theorem getInstance_after_failed_validation_eval :
    (ContractInteractor.getInstance none "3.0.0").2 =
      Except.error
        "Provided Hub version(3.0.0) is not supported by the current interactor(2.0.1)" ∧
    (ContractInteractor.getInstance
        (ContractInteractor.getInstance none "3.0.0").1 "3.0.0").2 =
      Except.ok ⟨⟨"2.0.1"⟩⟩ := by
  exact ⟨by decide, by decide⟩

theorem validateAcceptRelayCall_budget_zero (gw : RelayGateway) (factor : ℚ)
    (gp : Nat) (w : String)
    (h : (getMaxViewableRelayGasLimit gw factor gp).1 = Except.ok 0) :
    validateAcceptRelayCall gw factor gp w =
      (Except.ok
        { verifierAccepted := false, reverted := false,
          returnValue := insufficientBalanceMessage w, revertedInDestination := false },
        (getMaxViewableRelayGasLimit gw factor gp).2) := by
  simp only [validateAcceptRelayCall, h]
  simp

theorem validateAcceptRelayCall_verifier_error (gw : RelayGateway) (factor : ℚ)
    (gp : Nat) (w : String) (L : Nat) (msg : String)
    (h : (getMaxViewableRelayGasLimit gw factor gp).1 = Except.ok L) (hL : L ≠ 0)
    (hv : gw.verifyRelayedCall = Except.error msg) :
    validateAcceptRelayCall gw factor gp w =
      (Except.ok
        { verifierAccepted := false, reverted := false,
          returnValue := "view call to \x27relayCall\x27 reverted in verifier: " ++ msg,
          revertedInDestination := false },
        (getMaxViewableRelayGasLimit gw factor gp).2 ++ [GatewayCall.verifyRelayedCall]) := by
  simp only [validateAcceptRelayCall, h, hv, if_neg hL]

theorem validateAcceptRelayCall_execution_error (gw : RelayGateway) (factor : ℚ)
    (gp : Nat) (w : String) (L : Nat) (msg : String)
    (h : (getMaxViewableRelayGasLimit gw factor gp).1 = Except.ok L) (hL : L ≠ 0)
    (hv : gw.verifyRelayedCall = Except.ok ())
    (he : gw.relayCall = Except.error msg) :
    validateAcceptRelayCall gw factor gp w =
      (Except.ok
        { verifierAccepted := true, reverted := true,
          returnValue := "view call to \x27relayCall\x27 reverted in client: " ++ msg,
          revertedInDestination := false },
        (getMaxViewableRelayGasLimit gw factor gp).2 ++
          [GatewayCall.verifyRelayedCall, GatewayCall.relayCall]) := by
  simp only [validateAcceptRelayCall, h, hv, he, if_neg hL]

theorem validateAcceptRelayCall_execution_ok (gw : RelayGateway) (factor : ℚ)
    (gp : Nat) (w : String) (L : Nat) (res : Bool)
    (h : (getMaxViewableRelayGasLimit gw factor gp).1 = Except.ok L) (hL : L ≠ 0)
    (hv : gw.verifyRelayedCall = Except.ok ())
    (he : gw.relayCall = Except.ok res) :
    validateAcceptRelayCall gw factor gp w =
      (Except.ok
        { verifierAccepted := true, reverted := false,
          returnValue := "", revertedInDestination := !res },
        (getMaxViewableRelayGasLimit gw factor gp).2 ++
          [GatewayCall.verifyRelayedCall, GatewayCall.relayCall]) := by
  simp only [validateAcceptRelayCall, h, hv, he, if_neg hL]

theorem validateAcceptDeployCall_budget_zero (gw : DeployGateway) (gp : Nat) (w : String)
    (h : (getMaxViewableDeployGasLimit gw gp).1 = Except.ok 0) :
    validateAcceptDeployCall gw gp w =
      (Except.ok
        { verifierAccepted := false, reverted := false,
          returnValue := insufficientBalanceMessage w },
        (getMaxViewableDeployGasLimit gw gp).2) := by
  simp only [validateAcceptDeployCall, h]
  simp

/-- Claim C1: whenever the computed maximum viewable gas limit is zero,
both the relay and the deploy feasibility checks return the terminal
verdict (verifier not accepted, not reverted, not reverted in
destination) carrying the insufficient-balance detail, and neither the
verifier simulation nor the hub execution simulation is invoked. -/
theorem relay_deploy_budget_zero_terminal
    (gwR : RelayGateway) (factor : ℚ) (gp : Nat) (w : String)
    (gwD : DeployGateway) (gpD : Nat) (wD : String)
    (hR : (getMaxViewableRelayGasLimit gwR factor gp).1 = Except.ok 0)
    (hD : (getMaxViewableDeployGasLimit gwD gpD).1 = Except.ok 0) :
    ((validateAcceptRelayCall gwR factor gp w).1 =
      Except.ok
        { verifierAccepted := false, reverted := false,
          returnValue := insufficientBalanceMessage w, revertedInDestination := false }) ∧
    GatewayCall.verifyRelayedCall ∉ (validateAcceptRelayCall gwR factor gp w).2 ∧
    GatewayCall.relayCall ∉ (validateAcceptRelayCall gwR factor gp w).2 ∧
    ((validateAcceptDeployCall gwD gpD wD).1 =
      Except.ok
        { verifierAccepted := false, reverted := false,
          returnValue := insufficientBalanceMessage wD }) ∧
    GatewayCall.verifyRelayedCall ∉ (validateAcceptDeployCall gwD gpD wD).2 ∧
    GatewayCall.deployCall ∉ (validateAcceptDeployCall gwD gpD wD).2 := by
  rw [validateAcceptRelayCall_budget_zero gwR factor gp w hR,
    validateAcceptDeployCall_budget_zero gwD gpD wD hD,
    getMaxViewableRelayGasLimit_trace gwR factor gp]
  rcases getMaxViewableDeployGasLimit_trace gwD gpD with hT | hT <;> rw [hT] <;>
    exact ⟨rfl, by decide, by decide, rfl, by decide, by decide⟩

/-- Claim C1 witness: a worker with balance 0 at gas price 1 on both
paths. -/
theorem relay_deploy_budget_zero_terminal_witness :
    ((getMaxViewableRelayGasLimit ⟨5, 0, Except.ok (), Except.ok true⟩ 1 1).1 =
      Except.ok 0) ∧
    ((getMaxViewableDeployGasLimit ⟨true, 5, 0, Except.ok (), Except.ok "0xhash"⟩ 1).1 =
      Except.ok 0) ∧
    (((validateAcceptRelayCall ⟨5, 0, Except.ok (), Except.ok true⟩ 1 1 "0xworker").1 =
      Except.ok
        { verifierAccepted := false, reverted := false,
          returnValue := insufficientBalanceMessage "0xworker",
          revertedInDestination := false }) ∧
    GatewayCall.verifyRelayedCall ∉
      (validateAcceptRelayCall ⟨5, 0, Except.ok (), Except.ok true⟩ 1 1 "0xworker").2 ∧
    GatewayCall.relayCall ∉
      (validateAcceptRelayCall ⟨5, 0, Except.ok (), Except.ok true⟩ 1 1 "0xworker").2 ∧
    ((validateAcceptDeployCall ⟨true, 5, 0, Except.ok (), Except.ok "0xhash"⟩ 1 "0xworker").1 =
      Except.ok
        { verifierAccepted := false, reverted := false,
          returnValue := insufficientBalanceMessage "0xworker" }) ∧
    GatewayCall.verifyRelayedCall ∉
      (validateAcceptDeployCall ⟨true, 5, 0, Except.ok (), Except.ok "0xhash"⟩ 1 "0xworker").2 ∧
    GatewayCall.deployCall ∉
      (validateAcceptDeployCall ⟨true, 5, 0, Except.ok (), Except.ok "0xhash"⟩ 1 "0xworker").2) := by
  have hR : (getMaxViewableRelayGasLimit ⟨5, 0, Except.ok (), Except.ok true⟩ 1 1).1 =
      Except.ok 0 := by
    simp [getMaxViewableRelayGasLimit, estimateRelayTransactionMaxPossibleGas,
      applyGasCorrectionFactor_one]
  have hD : (getMaxViewableDeployGasLimit ⟨true, 5, 0, Except.ok (), Except.ok "0xhash"⟩ 1).1 =
      Except.ok 0 := by decide
  exact ⟨hR, hD,
    relay_deploy_budget_zero_terminal _ 1 1 "0xworker" _ 1 "0xworker" hR hD⟩

/-- Claim C2: with a non-zero gas budget, a throwing verifier simulation
is recovered into the returned verdict (verifier not accepted, not
reverted) whose detail carries the thrown message, and a throwing hub
execution simulation after a passing verifier is recovered into the
returned verdict (verifier accepted, reverted) whose detail carries the
thrown message; neither case propagates the failure. -/
theorem relay_simulation_errors_recovered
    (gw : RelayGateway) (factor : ℚ) (gp : Nat) (w : String) (L : Nat)
    (hL : (getMaxViewableRelayGasLimit gw factor gp).1 = Except.ok L) (hL0 : L ≠ 0) :
    (∀ msg, gw.verifyRelayedCall = Except.error msg →
      (validateAcceptRelayCall gw factor gp w).1 =
        Except.ok
          { verifierAccepted := false, reverted := false,
            returnValue := "view call to \x27relayCall\x27 reverted in verifier: " ++ msg,
            revertedInDestination := false }) ∧
    (∀ msg, gw.verifyRelayedCall = Except.ok () → gw.relayCall = Except.error msg →
      (validateAcceptRelayCall gw factor gp w).1 =
        Except.ok
          { verifierAccepted := true, reverted := true,
            returnValue := "view call to \x27relayCall\x27 reverted in client: " ++ msg,
            revertedInDestination := false }) := by
  constructor
  · intro msg hv
    rw [validateAcceptRelayCall_verifier_error gw factor gp w L msg hL hL0 hv]
  · intro msg hv he
    rw [validateAcceptRelayCall_execution_error gw factor gp w L msg hL hL0 hv he]

/-- Claim C2 witness: a funded worker with a verifier that throws
`revert Not the owner`, and a funded worker whose hub execution
simulation throws. -/
theorem relay_simulation_errors_recovered_witness :
    ((getMaxViewableRelayGasLimit
        ⟨5, 10, Except.error "revert Not the owner", Except.ok true⟩ 1 1).1 =
      Except.ok 5) ∧
    ((getMaxViewableRelayGasLimit
        ⟨5, 10, Except.ok (), Except.error "execution reverted"⟩ 1 1).1 =
      Except.ok 5) ∧
    ((validateAcceptRelayCall
        ⟨5, 10, Except.error "revert Not the owner", Except.ok true⟩ 1 1 "0xworker").1 =
      Except.ok
        { verifierAccepted := false, reverted := false,
          returnValue :=
            "view call to \x27relayCall\x27 reverted in verifier: " ++ "revert Not the owner",
          revertedInDestination := false }) ∧
    ((validateAcceptRelayCall
        ⟨5, 10, Except.ok (), Except.error "execution reverted"⟩ 1 1 "0xworker").1 =
      Except.ok
        { verifierAccepted := true, reverted := true,
          returnValue :=
            "view call to \x27relayCall\x27 reverted in client: " ++ "execution reverted",
          revertedInDestination := false }) := by
  have h1 : (getMaxViewableRelayGasLimit
      ⟨5, 10, Except.error "revert Not the owner", Except.ok true⟩ 1 1).1 =
      Except.ok 5 := by
    simp [getMaxViewableRelayGasLimit, estimateRelayTransactionMaxPossibleGas,
      applyGasCorrectionFactor_one]
  have h2 : (getMaxViewableRelayGasLimit
      ⟨5, 10, Except.ok (), Except.error "execution reverted"⟩ 1 1).1 =
      Except.ok 5 := by
    simp [getMaxViewableRelayGasLimit, estimateRelayTransactionMaxPossibleGas,
      applyGasCorrectionFactor_one]
  exact ⟨h1, h2,
    (relay_simulation_errors_recovered _ 1 1 "0xworker" 5 h1 (by decide)).1
      "revert Not the owner" rfl,
    (relay_simulation_errors_recovered _ 1 1 "0xworker" 5 h2 (by decide)).2
      "execution reverted" rfl rfl⟩

/-- Claim C5: with a non-zero budget, a passing verifier and a
successful hub execution simulation, the verdict accepts the verifier,
is not reverted, and reports the destination outcome negated: a failed
destination call yields `revertedInDestination = true`, a successful
one yields `false`. -/
theorem destination_revert_reported
    (gw : RelayGateway) (factor : ℚ) (gp : Nat) (w : String) (L : Nat) (res : Bool)
    (hL : (getMaxViewableRelayGasLimit gw factor gp).1 = Except.ok L) (hL0 : L ≠ 0)
    (hv : gw.verifyRelayedCall = Except.ok ())
    (he : gw.relayCall = Except.ok res) :
    (validateAcceptRelayCall gw factor gp w).1 =
      Except.ok
        { verifierAccepted := true, reverted := false,
          returnValue := "", revertedInDestination := !res } := by
  rw [validateAcceptRelayCall_execution_ok gw factor gp w L res hL hL0 hv he]

/-- Claim C5 witness: a funded worker whose execution simulation reports
a failing destination call, and one whose destination call succeeds. -/
theorem destination_revert_reported_witness :
    ((getMaxViewableRelayGasLimit ⟨5, 10, Except.ok (), Except.ok false⟩ 1 1).1 =
      Except.ok 5) ∧
    ((getMaxViewableRelayGasLimit ⟨5, 10, Except.ok (), Except.ok true⟩ 1 1).1 =
      Except.ok 5) ∧
    ((validateAcceptRelayCall ⟨5, 10, Except.ok (), Except.ok false⟩ 1 1 "0xworker").1 =
      Except.ok
        { verifierAccepted := true, reverted := false,
          returnValue := "", revertedInDestination := true }) ∧
    ((validateAcceptRelayCall ⟨5, 10, Except.ok (), Except.ok true⟩ 1 1 "0xworker").1 =
      Except.ok
        { verifierAccepted := true, reverted := false,
          returnValue := "", revertedInDestination := false }) := by
  have h1 : (getMaxViewableRelayGasLimit ⟨5, 10, Except.ok (), Except.ok false⟩ 1 1).1 =
      Except.ok 5 := by
    simp [getMaxViewableRelayGasLimit, estimateRelayTransactionMaxPossibleGas,
      applyGasCorrectionFactor_one]
  have h2 : (getMaxViewableRelayGasLimit ⟨5, 10, Except.ok (), Except.ok true⟩ 1 1).1 =
      Except.ok 5 := by
    simp [getMaxViewableRelayGasLimit, estimateRelayTransactionMaxPossibleGas,
      applyGasCorrectionFactor_one]
  exact ⟨h1, h2,
    destination_revert_reported _ 1 1 "0xworker" 5 false h1 (by decide) rfl rfl,
    destination_revert_reported _ 1 1 "0xworker" 5 true h2 (by decide) rfl rfl⟩

/-- Claim C4: with a positive gas price, both maximum-viewable-gas-limit
computations return the estimated gas unchanged exactly when the worker
balance divided (integer floor) by the gas price is at least the
estimate — the boundary case of equality included — and return 0
otherwise, never any value strictly between 0 and the estimate. -/
theorem affordability_clamp
    (gwR : RelayGateway) (factor : ℚ) (gp : Nat) (hgp : 0 < gp)
    (gwD : DeployGateway) (gpD : Nat) (hgpD : 0 < gpD)
    (hhub : gwD.relayHubAddressOk = true) :
    ((applyGasCorrectionFactor gwR.rawEstimate factor ≤ gwR.workerBalance / gp →
      (getMaxViewableRelayGasLimit gwR factor gp).1 =
        Except.ok (applyGasCorrectionFactor gwR.rawEstimate factor)) ∧
    (gwR.workerBalance / gp < applyGasCorrectionFactor gwR.rawEstimate factor →
      (getMaxViewableRelayGasLimit gwR factor gp).1 = Except.ok 0) ∧
    (∀ r, (getMaxViewableRelayGasLimit gwR factor gp).1 = Except.ok r →
      r = 0 ∨ r = applyGasCorrectionFactor gwR.rawEstimate factor)) ∧
    ((gwD.rawDeployEstimate ≤ gwD.workerBalance / gpD →
      (getMaxViewableDeployGasLimit gwD gpD).1 = Except.ok gwD.rawDeployEstimate) ∧
    (gwD.workerBalance / gpD < gwD.rawDeployEstimate →
      (getMaxViewableDeployGasLimit gwD gpD).1 = Except.ok 0) ∧
    (∀ r, (getMaxViewableDeployGasLimit gwD gpD).1 = Except.ok r →
      r = 0 ∨ r = gwD.rawDeployEstimate)) := by
  have hgp' : gp ≠ 0 := Nat.pos_iff_ne_zero.mp hgp
  have hgpD' : gpD ≠ 0 := Nat.pos_iff_ne_zero.mp hgpD
  constructor
  · refine ⟨fun hle => ?_, fun hlt => ?_, fun r hr => ?_⟩
    · simp [getMaxViewableRelayGasLimit, estimateRelayTransactionMaxPossibleGas,
        hgp', if_pos hle]
    · simp [getMaxViewableRelayGasLimit, estimateRelayTransactionMaxPossibleGas,
        hgp', if_neg (Nat.not_le.mpr hlt)]
    · simp only [getMaxViewableRelayGasLimit, estimateRelayTransactionMaxPossibleGas,
        if_neg hgp', Except.ok.injEq] at hr
      by_cases hc : applyGasCorrectionFactor gwR.rawEstimate factor ≤ gwR.workerBalance / gp
      · rw [if_pos hc] at hr
        exact Or.inr hr.symm
      · rw [if_neg hc] at hr
        exact Or.inl hr.symm
  · refine ⟨fun hle => ?_, fun hlt => ?_, fun r hr => ?_⟩
    · simp [getMaxViewableDeployGasLimit, walletFactoryEstimateGasOfDeployCall,
        hgpD', hhub, if_pos hle]
    · simp [getMaxViewableDeployGasLimit, walletFactoryEstimateGasOfDeployCall,
        hgpD', hhub, if_neg (Nat.not_le.mpr hlt)]
    · simp only [getMaxViewableDeployGasLimit, walletFactoryEstimateGasOfDeployCall,
        if_neg hgpD', hhub, if_true, Except.ok.injEq] at hr
      by_cases hc : gwD.rawDeployEstimate ≤ gwD.workerBalance / gpD
      · rw [if_pos hc] at hr
        exact Or.inr hr.symm
      · rw [if_neg hc] at hr
        exact Or.inl hr.symm

/-- Claim C4 witness: the boundary case (balance 5, gas price 1,
estimate 5: affordable, returned unchanged) and an unaffordable case
on the deploy path. -/
theorem affordability_clamp_witness :
    (0 : Nat) < 1 ∧
    ((⟨true, 7, 3, Except.ok (), Except.ok "0xhash"⟩ : DeployGateway).relayHubAddressOk
      = true) ∧
    (applyGasCorrectionFactor 5 1 ≤ 5 / 1 →
      (getMaxViewableRelayGasLimit ⟨5, 5, Except.ok (), Except.ok true⟩ 1 1).1 =
        Except.ok (applyGasCorrectionFactor 5 1)) ∧
    ((3 : Nat) / 1 < 7 →
      (getMaxViewableDeployGasLimit ⟨true, 7, 3, Except.ok (), Except.ok "0xhash"⟩ 1).1 =
        Except.ok 0) := by
  have h := affordability_clamp ⟨5, 5, Except.ok (), Except.ok true⟩ 1 1 (by decide)
    ⟨true, 7, 3, Except.ok (), Except.ok "0xhash"⟩ 1 (by decide) rfl
  exact ⟨by decide, rfl, h.1.1, h.2.2.1⟩

/-- Claim C8 counterexample: with own version `1.0.0-alpha` (valid
semver) and remote string `1.0.0_alpha_fix`, the checker answers
`false`, yet the remote string with EVERY underscore replaced by a
hyphen (`1.0.0-alpha-fix`) does satisfy the caret range `^1.0.0-alpha`:
the source replaces only the first underscore (JavaScript
`String.replace` with a string pattern), leaving `1.0.0-alpha_fix`,
which is not valid semver. -/
theorem underscore_normalization_counterexample :
    semverValid "1.0.0-alpha" = true ∧
    VersionsManager.isMinorSameOrNewer ⟨"1.0.0-alpha"⟩ "1.0.0_alpha_fix" = false ∧
    semverSatisfiesCaret ("^" ++ "1.0.0-alpha")
      (replaceAllUnderscores "1.0.0_alpha_fix") = true := by
  exact ⟨by decide, by decide, by decide⟩

/-- Claim C8 (amended): for a checker whose own version parses,
`isMinorSameOrNewer` returns true exactly when the remote string,
normalized by replacing its FIRST underscore with a hyphen, parses as a
semantic version lying in the caret range derived from the own
version. -/
theorem isMinorSameOrNewer_caret_first_underscore
    (own remote : String) (base : SemVer)
    (hown : semverParse own = some base) :
    VersionsManager.isMinorSameOrNewer ⟨own⟩ remote = true ↔
      ∃ v, semverParse (replaceFirstUnderscore remote) = some v ∧
        rangeSatisfies (caretComparators base) v = true := by
  obtain ⟨data⟩ := own
  have hred : VersionsManager.isMinorSameOrNewer ⟨String.mk data⟩ remote =
      (match semverParse (String.mk data) with
        | none => false
        | some b =>
          match semverParse (replaceFirstUnderscore remote) with
          | none => false
          | some v => rangeSatisfies (caretComparators b) v) := rfl
  rw [hred, hown]
  rcases hv : semverParse (replaceFirstUnderscore remote) with _ | v
  · simp [hv]
  · simp [hv]

/-- Claim C8 witness: own version `2.0.1` against remote `2.1.0`. -/
theorem isMinorSameOrNewer_caret_first_underscore_witness :
    semverParse "2.0.1" = some ⟨2, 0, 1, []⟩ ∧
    (VersionsManager.isMinorSameOrNewer ⟨"2.0.1"⟩ "2.1.0" = true ↔
      ∃ v, semverParse (replaceFirstUnderscore "2.1.0") = some v ∧
        rangeSatisfies (caretComparators ⟨2, 0, 1, []⟩) v = true) :=
  ⟨by decide,
    isMinorSameOrNewer_caret_first_underscore "2.0.1" "2.1.0" ⟨2, 0, 1, []⟩ (by decide)⟩

/-- Claim C10: `isMinorSameOrNewer` is a total boolean function (its
codomain is `Bool`: the semver package recovers parse failures rather
than throwing), and on any remote string that does not parse as a
semantic version after normalization it returns `false`. -/
theorem isMinorSameOrNewer_total_invalid_false
    (vm : VersionsManager) (remote : String)
    (hrem : semverParse (replaceFirstUnderscore remote) = none) :
    vm.isMinorSameOrNewer remote = false := by
  obtain ⟨⟨data⟩⟩ := vm
  have hred : VersionsManager.isMinorSameOrNewer ⟨String.mk data⟩ remote =
      (match semverParse (String.mk data) with
        | none => false
        | some b =>
          match semverParse (replaceFirstUnderscore remote) with
          | none => false
          | some v => rangeSatisfies (caretComparators b) v) := rfl
  rw [hred]
  rcases hP : semverParse (String.mk data) with _ | b
  · rfl
  · rw [hrem]

/-- Claim C10 witness: a garbage remote string (and the checker built
from the interactor own version `2.0.1`). -/
theorem isMinorSameOrNewer_total_invalid_false_witness :
    semverParse (replaceFirstUnderscore "garbage") = none ∧
    VersionsManager.isMinorSameOrNewer ⟨"2.0.1"⟩ "garbage" = false :=
  ⟨by decide,
    isMinorSameOrNewer_total_invalid_false ⟨"2.0.1"⟩ "garbage" (by decide)⟩
